import Mathlib

/-!
Shallow embedding of the watercolour-painting front-end:

* `geminiService.ts` — `generateWatercolourPainting`: input validation of the
  `data:<mime>;base64,<payload>` source string, the call/response handling, and
  the exponential-backoff retry loop around the remote model call.
* the application component (`App`) — `initMap`, `handleGenerateWatercolour`:
  the pipeline-phase state machine with its capture cache.

The remote model is modelled as an oracle `Nat → CallResult` giving, for each
1-based attempt number, either a response or a thrown error message.  The
embedding records the number of network attempts made and the exact backoff
waits performed, so retry-count and delay claims are statable.
-/

namespace Art

/-- One inline-data payload of a response part (`part.inlineData`). -/
structure InlineData where
  mimeType : String
  data : String
deriving DecidableEq, Repr

/-- One content part of a model response (`candidates[0].content.parts[i]`). -/
structure RespPart where
  inlineData : Option InlineData
deriving DecidableEq, Repr

/-- A model response: the optional part list at
`response.candidates?.[0]?.content?.parts` and the optional aggregated
`response.text`. -/
structure GenResponse where
  parts : Option (List RespPart)
  text : Option String
deriving DecidableEq, Repr

/-- Outcome of one `ai.models.generateContent` call: a response, or a thrown
error carrying its message string. -/
inductive CallResult where
  | ok : GenResponse → CallResult
  | err : String → CallResult
deriving DecidableEq, Repr

/-- Observable trace of one `generateWatercolourPainting` run: how many
network attempts were made, the backoff waits performed (in order, in ms),
and the final outcome (`.ok` data URL or `.error` message). -/
structure GenTrace where
  attempts : Nat
  waits : List Nat
  result : Except String String

/-- JavaScript `\w`: ASCII letters, digits and underscore. -/
def isWordChar (c : Char) : Bool :=
  c.isAlpha || c.isDigit || c == '_'

/-- Characters matched by an (unflagged) JavaScript regex `.`:
everything except the four line terminators. -/
def isRegexDotChar (c : Char) : Bool :=
  !(c == '\n' || c == '\r' || c.val == 0x2028 || c.val == 0x2029)

/-- Split a character list into its maximal leading run of `\w` characters
and the remainder (greedy `\w+` matching; no backtracking can help because
the character after any shorter run is still a word character). -/
def takeWordRun : List Char → List Char × List Char
  | [] => ([], [])
  | c :: cs =>
    if isWordChar c then
      let p := takeWordRun cs
      (c :: p.1, p.2)
    else ([], c :: cs)

/-- The input validation regex of `generateWatercolourPainting`:
`/^data:(image\/\w+);base64,(.*)$/`.  Returns the two capture groups
(the MIME type `image/<word-run>` and the payload, possibly empty) when the
whole string matches, `none` otherwise. -/
def matchDataUrl (s : String) : Option (String × String) :=
  let cs := s.toList
  let pre := "data:image/".toList
  if cs.take pre.length = pre then
    let rest := cs.drop pre.length
    let run := (takeWordRun rest).1
    let rest2 := (takeWordRun rest).2
    if run.isEmpty then none
    else
      let mid := ";base64,".toList
      if rest2.take mid.length = mid then
        let payload := rest2.drop mid.length
        if payload.all isRegexDotChar then
          some ("image/" ++ String.mk run, String.mk payload)
        else none
      else none
  else none

/-- Error message thrown when the input data URL fails validation. -/
def invalidInputMsg : String :=
  "無效的圖片數據 URL 格式。預期格式為 data:image/...;base64,..."

/-- Fallback text used when `response.text` is falsy (absent or empty). -/
def noTextFallback : String := "未收到文字回應。"

/-- Message of the error thrown when the response carries no inline-image
part: it quotes `response.text`, or the fallback when that is falsy. -/
def textErrMsg (t : Option String) : String :=
  let body :=
    match t with
    | some s => if s = "" then noTextFallback else s
    | none => noTextFallback
  "AI 模型回傳了文字而非圖片: \"" ++ body ++ "\""

/-- Message of the error thrown from the catch block when an attempt's error
is not retried: it wraps the attempt number and the caught message. -/
def wrapFail (attempt : Nat) (msg : String) : String :=
  "AI 模型在嘗試 " ++ toString attempt ++ " 次後無法生成圖片。詳細資訊: " ++ msg

/-- Message of the post-loop throw (unreachable when the loop logic is
correct, as the source comment notes). -/
def exhaustedFallthroughMsg : String := "AI 模型在所有重試後未能生成圖片。"

/-- `parts?.find(part => part.inlineData)` followed by reading
`imagePartFromResponse?.inlineData`: the first part carrying inline data. -/
def findInline (parts : Option (List RespPart)) : Option InlineData :=
  match parts with
  | none => none
  | some ps =>
    match ps.find? (fun p => p.inlineData.isSome) with
    | none => none
    | some p => p.inlineData

/-- The data URL built from a response's inline image data. -/
def mkDataUrl (m d : String) : String := "data:" ++ m ++ ";base64," ++ d

/-- What one try-block iteration produces from the call's outcome:
success with the echoed data URL, or the message of the error that reaches
the catch block (either the thrown transport error or the text-response
error thrown inside the try). -/
def attemptOutcome : CallResult → Except String String
  | .ok resp =>
    match findInline resp.parts with
    | some d => .ok (mkDataUrl d.mimeType d.data)
    | none => .error (textErrMsg resp.text)
  | .err m => .error m

/-- Substring test used to implement the error classification. -/
def strContains (hay pat : String) : Bool :=
  go pat.toList hay.toList
where
  /-- Does `pat` occur as a contiguous run inside `l`? -/
  go (pat : List Char) : List Char → Bool
    | [] => pat.isEmpty
    | c :: cs => (c :: cs).take pat.length = pat || go pat cs

/-- `errorMessage.includes('"code":500') || errorMessage.includes('INTERNAL')`:
the retryable / fatal classification of a caught error. -/
def isInternalError (m : String) : Bool :=
  strContains m "\"code\":500" || strContains m "INTERNAL"

/-- `const maxRetries = 3` — total attempt cap. -/
def maxRetries : Nat := 3

/-- `const initialDelay = 1000` — base backoff delay in ms. -/
def initialDelay : Nat := 1000

/-- The retry loop `for (let attempt = 1; attempt <= maxRetries; attempt++)`,
run from `attempt` with `fuel` loop iterations remaining.  A retry happens
exactly when the caught message is classified internal and `attempt <
maxRetries`; the backoff before the retry is `initialDelay * 2 ^ (attempt -
1)` ms. -/
def runGen (oracle : Nat → CallResult) : Nat → Nat → GenTrace
  | _, 0 => ⟨0, [], .error exhaustedFallthroughMsg⟩
  | attempt, fuel + 1 =>
    match attemptOutcome (oracle attempt) with
    | .ok url => ⟨1, [], .ok url⟩
    | .error m =>
      if isInternalError m ∧ attempt < maxRetries then
        let rest := runGen oracle (attempt + 1) fuel
        ⟨rest.attempts + 1, initialDelay * 2 ^ (attempt - 1) :: rest.waits, rest.result⟩
      else ⟨1, [], .error (wrapFail attempt m)⟩

/-- `generateWatercolourPainting`: validate the input data URL (throwing the
invalid-input error with no network call when the regex fails), then run the
retry loop against the model oracle. -/
def generateWatercolourPainting (imageDataUrl : String)
    (oracle : Nat → CallResult) : GenTrace :=
  match matchDataUrl imageDataUrl with
  | none => ⟨0, [], .error invalidInputMsg⟩
  | some _ => runGen oracle 1 maxRetries

/-! ## The application component (state machine + capture cache)

The React state fields that drive the pipeline phases.  The phase mapping:
`NoView` is `mapInitialized = false`; `ViewReady` is `mapInitialized = true`
with `watercolourPainting = ""`; `ResultReady` is `watercolourPainting ≠ ""`;
`Generating` is `isGeneratingPainting = true` (transient during a handler
run, which the embedding folds into one step). -/

/-- The component state fields relevant to the pipeline. -/
structure AppState where
  error : Option String
  mapInitialized : Bool
  isGeneratingPainting : Bool
  watercolourPainting : String
  capturedMapImage : String
deriving DecidableEq, Repr

/-- The state effects of `initMap` once the map libraries resolve:
`setMapInitialized(true); setWatercolourPainting(''); setCapturedMapImage('')`.
The map/marker objects themselves are external collaborators. -/
def initMap (st : AppState) : AppState :=
  { st with mapInitialized := true, watercolourPainting := "",
            capturedMapImage := "" }

/-- `handleBackToMap`: clear the result and the cached capture. -/
def handleBackToMap (st : AppState) : AppState :=
  { st with watercolourPainting := "", capturedMapImage := "" }

/-- The failure path of `handleGenerateWatercolour`'s catch block:
surface the message and clear both the result and the cached capture. -/
def genFailState (st : AppState) (e : String) : AppState :=
  { st with error := some e, watercolourPainting := "",
            capturedMapImage := "", isGeneratingPainting := false }

/-- Which image `handleGenerateWatercolour` feeds to the generator:
the cached capture when re-running (`isRerunning && capturedMapImage`,
JavaScript truthiness being non-emptiness for strings), otherwise the
outcome of a fresh `captureMapView()` call. -/
def imageToProcess (st : AppState) (capture : Except String String) :
    Except String String :=
  if st.watercolourPainting ≠ "" ∧ st.capturedMapImage ≠ "" then
    .ok st.capturedMapImage
  else capture

/-- One run of `handleGenerateWatercolour`, parameterised by what
`captureMapView()` would produce (`capture`, which may throw) and by the
generator's outcome on each possible input (`gen`).  Returns the resulting
state together with the number of `captureMapView()` invocations made. -/
def handleGenerateWatercolour (st : AppState) (capture : Except String String)
    (gen : String → Except String String) : AppState × Nat :=
  if st.watercolourPainting ≠ "" ∧ st.capturedMapImage ≠ "" then
    match gen st.capturedMapImage with
    | .ok url =>
      ({ st with error := none, watercolourPainting := url,
                 isGeneratingPainting := false }, 0)
    | .error e => (genFailState st e, 0)
  else
    match capture with
    | .error e => (genFailState st e, 1)
    | .ok img =>
      match gen img with
      | .ok url =>
        ({ st with error := none, watercolourPainting := url,
                   capturedMapImage := img, isGeneratingPainting := false }, 1)
      | .error e => (genFailState st e, 1)

/-! ## Helper lemmas about the retry loop -/

/-- Unfolding equation of `runGen` for a positive fuel value. -/
theorem runGen_succ (o : Nat → CallResult) (a fuel : Nat) :
    runGen o a (fuel + 1) =
      match attemptOutcome (o a) with
      | .ok url => ⟨1, [], .ok url⟩
      | .error m =>
        if isInternalError m ∧ a < maxRetries then
          ⟨(runGen o (a + 1) fuel).attempts + 1,
            initialDelay * 2 ^ (a - 1) :: (runGen o (a + 1) fuel).waits,
            (runGen o (a + 1) fuel).result⟩
        else ⟨1, [], .error (wrapFail a m)⟩ := rfl

/-- A successful attempt ends the loop at once. -/
theorem runGen_ok_step (o : Nat → CallResult) (a fuel : Nat) (url : String)
    (h : attemptOutcome (o a) = .ok url) :
    runGen o a (fuel + 1) = ⟨1, [], .ok url⟩ := by
  rw [runGen_succ, h]

/-- A retryable failure below the cap waits and continues. -/
theorem runGen_retry_step (o : Nat → CallResult) (a fuel : Nat) (m : String)
    (h : attemptOutcome (o a) = .error m) (hi : isInternalError m = true)
    (hlt : a < maxRetries) :
    runGen o a (fuel + 1) =
      ⟨(runGen o (a + 1) fuel).attempts + 1,
        initialDelay * 2 ^ (a - 1) :: (runGen o (a + 1) fuel).waits,
        (runGen o (a + 1) fuel).result⟩ := by
  rw [runGen_succ, h]
  simp [hi, hlt]

/-- A failure that is not (retryable and below the cap) throws the wrapped
error at once. -/
theorem runGen_fatal_step (o : Nat → CallResult) (a fuel : Nat) (m : String)
    (h : attemptOutcome (o a) = .error m)
    (hc : ¬(isInternalError m = true ∧ a < maxRetries)) :
    runGen o a (fuel + 1) = ⟨1, [], .error (wrapFail a m)⟩ := by
  rw [runGen_succ, h]
  simp only [if_neg hc]

/-- With fuel remaining, the loop makes at least one attempt. -/
theorem runGen_attempts_pos (o : Nat → CallResult) (a fuel : Nat)
    (h : 1 ≤ fuel) : 1 ≤ (runGen o a fuel).attempts := by
  obtain ⟨f, rfl⟩ : ∃ f, fuel = f + 1 := ⟨fuel - 1, by omega⟩
  cases ho : attemptOutcome (o a) with
  | ok url =>
    rw [runGen_ok_step o a f url ho]
  | error m =>
    by_cases hc : isInternalError m = true ∧ a < maxRetries
    · rw [runGen_retry_step o a f m ho hc.1 hc.2]
      exact Nat.succ_le_succ (Nat.zero_le _)
    · rw [runGen_fatal_step o a f m ho hc]

/-- Any successful result of the loop is the outcome of one of the attempts
it made, within the fuel window. -/
theorem runGen_ok_src (o : Nat → CallResult) (fuel : Nat) :
    ∀ a u, (runGen o a fuel).result = .ok u →
      ∃ k, a ≤ k ∧ k < a + fuel ∧ attemptOutcome (o k) = .ok u := by
  induction fuel with
  | zero =>
    intro a u h
    simp [runGen] at h
  | succ f ih =>
    intro a u h
    have h' : (runGen o a (f + 1)).result = Except.ok u := h
    cases ho : attemptOutcome (o a) with
    | ok url =>
      rw [runGen_ok_step o a f url ho] at h'
      simp at h'
      exact ⟨a, le_refl a, by omega, by rw [ho, h']⟩
    | error m =>
      by_cases hc : isInternalError m = true ∧ a < maxRetries
      · rw [runGen_retry_step o a f m ho hc.1 hc.2] at h'
        simp only at h'
        obtain ⟨k, hk1, hk2, hk3⟩ := ih (a + 1) u h'
        exact ⟨k, by omega, by omega, hk3⟩
      · rw [runGen_fatal_step o a f m ho hc] at h'
        simp at h'

/-- The word run extracted by `takeWordRun` consists of word characters. -/
theorem takeWordRun_words : ∀ cs : List Char,
    (takeWordRun cs).1.all isWordChar = true := by
  intro cs
  induction cs with
  | nil => rfl
  | cons c cs ih =>
    rw [takeWordRun]
    split
    · next hw => simpa [hw] using ih
    · rfl

/-! ## Claims about the Painting Generator -/

/-- C1: for any input that passes validation and any model oracle whose first
three attempts all throw errors classified internal (retryable), the
generator makes exactly 3 attempts, waits exactly 1000 ms before attempt 2
and 2000 ms before attempt 3 (and nowhere else), and fails with the
exhaustion error wrapping the last attempt's error. -/
theorem generate_exhausts_after_three_internal_failures
    (s : String) (o : Nat → CallResult) (hs : matchDataUrl s ≠ none)
    (m1 m2 m3 : String)
    (h1 : o 1 = CallResult.err m1) (hi1 : isInternalError m1 = true)
    (h2 : o 2 = CallResult.err m2) (hi2 : isInternalError m2 = true)
    (h3 : o 3 = CallResult.err m3) (_hi3 : isInternalError m3 = true) :
    generateWatercolourPainting s o = ⟨3, [1000, 2000], .error (wrapFail 3 m3)⟩ := by
  obtain ⟨p, hp⟩ : ∃ p, matchDataUrl s = some p := by
    cases hm : matchDataUrl s
    · exact absurd hm hs
    · exact ⟨_, rfl⟩
  have ho1 : attemptOutcome (o 1) = .error m1 := by rw [h1]; rfl
  have ho2 : attemptOutcome (o 2) = .error m2 := by rw [h2]; rfl
  have ho3 : attemptOutcome (o 3) = .error m3 := by rw [h3]; rfl
  unfold generateWatercolourPainting
  rw [hp]
  show runGen o 1 (2 + 1) = _
  rw [runGen_retry_step o 1 2 m1 ho1 hi1 (by norm_num [maxRetries])]
  rw [show runGen o (1 + 1) 2 = runGen o 2 (1 + 1) from rfl]
  rw [runGen_retry_step o 2 1 m2 ho2 hi2 (by norm_num [maxRetries])]
  rw [show runGen o (2 + 1) 1 = runGen o 3 (0 + 1) from rfl]
  rw [runGen_fatal_step o 3 0 m3 ho3 (by simp [maxRetries])]
  norm_num [initialDelay]

/-- C1 witness: all three attempts throw "INTERNAL". -/
theorem generate_exhausts_after_three_internal_failures_witness :
    generateWatercolourPainting "data:image/png;base64,AA"
      (fun _ => CallResult.err "INTERNAL") =
      ⟨3, [1000, 2000], .error (wrapFail 3 "INTERNAL")⟩ :=
  generate_exhausts_after_three_internal_failures _ _ (by decide)
    "INTERNAL" "INTERNAL" "INTERNAL" rfl rfl rfl rfl rfl rfl

/-- C3: a first-attempt error without an internal marker is fatal at once —
one attempt, no wait, the wrapped error; a first-attempt error with the
marker (cap not yet reached) is retried — at least two attempts with a
1000 ms first wait; and two marked errors followed by an inline-image
response yield success after exactly 3 attempts and waits 1000 ms, 2000 ms. -/
theorem generate_retry_classification
    (s : String) (o : Nat → CallResult) (hs : matchDataUrl s ≠ none) :
    (∀ m, o 1 = CallResult.err m → isInternalError m = false →
      generateWatercolourPainting s o = ⟨1, [], .error (wrapFail 1 m)⟩) ∧
    (∀ m, o 1 = CallResult.err m → isInternalError m = true →
      2 ≤ (generateWatercolourPainting s o).attempts ∧
      (generateWatercolourPainting s o).waits.head? = some 1000) ∧
    (∀ m1 m2 resp d, o 1 = CallResult.err m1 → isInternalError m1 = true →
      o 2 = CallResult.err m2 → isInternalError m2 = true →
      o 3 = CallResult.ok resp → findInline resp.parts = some d →
      generateWatercolourPainting s o =
        ⟨3, [1000, 2000], .ok (mkDataUrl d.mimeType d.data)⟩) := by
  obtain ⟨p, hp⟩ : ∃ p, matchDataUrl s = some p := by
    cases hm : matchDataUrl s
    · exact absurd hm hs
    · exact ⟨_, rfl⟩
  refine ⟨?_, ?_, ?_⟩
  · intro m h1 hni
    have ho1 : attemptOutcome (o 1) = .error m := by rw [h1]; rfl
    unfold generateWatercolourPainting
    rw [hp]
    show runGen o 1 (2 + 1) = _
    rw [runGen_fatal_step o 1 2 m ho1 (by simp [hni])]
  · intro m h1 hi
    have ho1 : attemptOutcome (o 1) = .error m := by rw [h1]; rfl
    unfold generateWatercolourPainting
    rw [hp]
    show 2 ≤ (runGen o 1 (2 + 1)).attempts ∧
      (runGen o 1 (2 + 1)).waits.head? = some 1000
    rw [runGen_retry_step o 1 2 m ho1 hi (by norm_num [maxRetries])]
    constructor
    · have := runGen_attempts_pos o (1 + 1) 2 (by norm_num)
      simpa using this
    · simp [initialDelay]
  · intro m1 m2 resp d h1 hi1 h2 hi2 h3 hf
    have ho1 : attemptOutcome (o 1) = .error m1 := by rw [h1]; rfl
    have ho2 : attemptOutcome (o 2) = .error m2 := by rw [h2]; rfl
    have ho3 : attemptOutcome (o 3) = .ok (mkDataUrl d.mimeType d.data) := by
      rw [h3]; simp [attemptOutcome, hf]
    unfold generateWatercolourPainting
    rw [hp]
    show runGen o 1 (2 + 1) = _
    rw [runGen_retry_step o 1 2 m1 ho1 hi1 (by norm_num [maxRetries])]
    rw [show runGen o (1 + 1) 2 = runGen o 2 (1 + 1) from rfl]
    rw [runGen_retry_step o 2 1 m2 ho2 hi2 (by norm_num [maxRetries])]
    rw [show runGen o (2 + 1) 1 = runGen o 3 (0 + 1) from rfl]
    rw [runGen_ok_step o 3 0 _ ho3]
    norm_num [initialDelay]

/-- C3 witness: a non-marker error on the first attempt fails at once. -/
theorem generate_retry_classification_witness :
    generateWatercolourPainting "data:image/png;base64,AA"
      (fun _ => CallResult.err "boom") = ⟨1, [], .error (wrapFail 1 "boom")⟩ :=
  (generate_retry_classification "data:image/png;base64,AA"
    (fun _ => CallResult.err "boom") (by decide)).1 "boom" rfl (by decide)

/-- C5: when the first attempt's response carries a part with inline image
data (MIME `m`, payload `d`), the generator succeeds immediately with the
data URL built from them: one attempt, no waits. -/
theorem generate_returns_inline_image_immediately
    (s : String) (o : Nat → CallResult) (hs : matchDataUrl s ≠ none)
    (resp : GenResponse) (d : InlineData)
    (h1 : o 1 = CallResult.ok resp) (hf : findInline resp.parts = some d) :
    generateWatercolourPainting s o =
      ⟨1, [], .ok (mkDataUrl d.mimeType d.data)⟩ := by
  obtain ⟨p, hp⟩ : ∃ p, matchDataUrl s = some p := by
    cases hm : matchDataUrl s
    · exact absurd hm hs
    · exact ⟨_, rfl⟩
  have ho1 : attemptOutcome (o 1) = .ok (mkDataUrl d.mimeType d.data) := by
    rw [h1]; simp [attemptOutcome, hf]
  unfold generateWatercolourPainting
  rw [hp]
  show runGen o 1 (2 + 1) = _
  rw [runGen_ok_step o 1 2 _ ho1]

/-- C5 witness: a PNG inline part on the first attempt. -/
theorem generate_returns_inline_image_immediately_witness :
    generateWatercolourPainting "data:image/png;base64,AA"
      (fun _ => CallResult.ok ⟨some [⟨some ⟨"image/png", "DATA"⟩⟩], none⟩) =
      ⟨1, [], .ok (mkDataUrl "image/png" "DATA")⟩ :=
  generate_returns_inline_image_immediately "data:image/png;base64,AA"
    (fun _ => CallResult.ok ⟨some [⟨some ⟨"image/png", "DATA"⟩⟩], none⟩)
    (by decide) ⟨some [⟨some ⟨"image/png", "DATA"⟩⟩], none⟩
    ⟨"image/png", "DATA"⟩ rfl rfl

/-- C2 counterexample: the payload capture group of the validation regex is
`(.*)`, so the empty payload `data:image/png;base64,` passes validation and
a network attempt is made — the code does not fail with the invalid-input
error on an empty payload, contrary to the claim. -/
theorem empty_payload_passes_validation :
    matchDataUrl "data:image/png;base64," = some ("image/png", "") ∧
    generateWatercolourPainting "data:image/png;base64,"
      (fun _ => CallResult.ok ⟨some [⟨some ⟨"image/png", "AAAA"⟩⟩], none⟩) =
      ⟨1, [], .ok "data:image/png;base64,AAAA"⟩ :=
  ⟨rfl, rfl⟩

/-- C2 (amended): the validation only requires the shape
`data:image/<word-run>;base64,<payload>` with the payload possibly empty.
When the pattern fails, the generator fails at once with the invalid-input
error, making no attempt and no wait; when it matches, at least one network
attempt is made. -/
theorem generate_validates_pattern_only
    (s : String) (o : Nat → CallResult) :
    (matchDataUrl s = none →
      generateWatercolourPainting s o = ⟨0, [], .error invalidInputMsg⟩) ∧
    (∀ p, matchDataUrl s = some p →
      1 ≤ (generateWatercolourPainting s o).attempts) := by
  constructor
  · intro h
    unfold generateWatercolourPainting
    rw [h]
  · intro p h
    unfold generateWatercolourPainting
    rw [h]
    exact runGen_attempts_pos o 1 maxRetries (by norm_num [maxRetries])

/-- C2 (amended) witness: a string failing the pattern is rejected with no
attempt. -/
theorem generate_validates_pattern_only_witness :
    generateWatercolourPainting "nope" (fun _ => CallResult.err "x") =
      ⟨0, [], .error invalidInputMsg⟩ :=
  (generate_validates_pattern_only "nope" (fun _ => CallResult.err "x")).1 rfl

/-- C4 counterexample: a text-only response whose text contains the marker
`INTERNAL` is thrown inside the try block, caught by the same catch, and
classified retryable — the run makes a second attempt after a 1000 ms wait,
contrary to the claim that a text-only response always fails after exactly 1
attempt with no backoff. -/
theorem text_response_with_marker_is_retried :
    findInline (GenResponse.mk (some [⟨none⟩]) (some "INTERNAL")).parts = none ∧
    generateWatercolourPainting "data:image/png;base64,AA"
      (fun a => if a = 1 then CallResult.ok ⟨some [⟨none⟩], some "INTERNAL"⟩
        else CallResult.ok ⟨some [⟨some ⟨"image/png", "GOOD"⟩⟩], none⟩) =
      ⟨2, [1000], .ok "data:image/png;base64,GOOD"⟩ :=
  ⟨rfl, rfl⟩

/-- C4 (amended): a response with no inline-image part makes the generator
throw the text-response error quoting `response.text` (or the no-response
fallback when the text is absent or empty); provided that message carries no
internal-error marker, the run is fatal: exactly 1 attempt, no wait, and the
final error wraps the text-response message.  When the quoted text contains
a marker, the failure is classified retryable and retried instead. -/
theorem text_only_response_fatal_unless_marker
    (s : String) (o : Nat → CallResult) (hs : matchDataUrl s ≠ none)
    (resp : GenResponse)
    (h1 : o 1 = CallResult.ok resp) (hni : findInline resp.parts = none)
    (hnm : isInternalError (textErrMsg resp.text) = false) :
    generateWatercolourPainting s o =
      ⟨1, [], .error (wrapFail 1 (textErrMsg resp.text))⟩ ∧
    (resp.text = none ∨ resp.text = some "" →
      textErrMsg resp.text = textErrMsg none) := by
  obtain ⟨p, hp⟩ : ∃ p, matchDataUrl s = some p := by
    cases hm : matchDataUrl s
    · exact absurd hm hs
    · exact ⟨_, rfl⟩
  constructor
  · have ho1 : attemptOutcome (o 1) = .error (textErrMsg resp.text) := by
      rw [h1]; simp [attemptOutcome, hni]
    unfold generateWatercolourPainting
    rw [hp]
    show runGen o 1 (2 + 1) = _
    rw [runGen_fatal_step o 1 2 _ ho1 (by simp [hnm])]
  · rintro (ht | ht)
    · rw [ht]
    · rw [ht]; simp [textErrMsg]

/-- C4 (amended) witness: a plain text-only response fails after one
attempt. -/
theorem text_only_response_fatal_unless_marker_witness :
    generateWatercolourPainting "data:image/png;base64,AA"
      (fun _ => CallResult.ok ⟨some [], some "plain text"⟩) =
      ⟨1, [], .error (wrapFail 1 (textErrMsg (some "plain text")))⟩ :=
  (text_only_response_fatal_unless_marker "data:image/png;base64,AA"
    (fun _ => CallResult.ok ⟨some [], some "plain text"⟩) (by decide)
    ⟨some [], some "plain text"⟩ rfl rfl (by decide)).1

/-- C6 counterexample: the generator echoes the response's inline data with
no validation, so a response declaring MIME `text/plain` and an empty
payload yields the success value `data:text/plain;base64,` — which is not a
well-formed image data URL (its own input validation rejects it) — contrary
to the claim that a malformed result is never returned. -/
theorem generate_can_return_malformed_result :
    (generateWatercolourPainting "data:image/png;base64,AAAA"
      (fun _ => CallResult.ok ⟨some [⟨some ⟨"text/plain", ""⟩⟩], none⟩)).result =
      .ok "data:text/plain;base64," ∧
    matchDataUrl "data:text/plain;base64," = none :=
  ⟨rfl, rfl⟩

/-- C6 (amended): every successful result of the generator is exactly
`data:<m>;base64,<d>` for the inline data `⟨m, d⟩` found in the response of
one of the (at most 3) attempts, echoed without validation; it is a
well-formed image data URL precisely when that response data is. -/
theorem generate_success_echoes_response_inline
    (s : String) (o : Nat → CallResult) (u : String)
    (h : (generateWatercolourPainting s o).result = .ok u) :
    ∃ k resp d, 1 ≤ k ∧ k ≤ maxRetries ∧ o k = CallResult.ok resp ∧
      findInline resp.parts = some d ∧ u = mkDataUrl d.mimeType d.data := by
  unfold generateWatercolourPainting at h
  cases hm : matchDataUrl s with
  | none => rw [hm] at h; simp at h
  | some p =>
    rw [hm] at h
    obtain ⟨k, hk1, hk2, hk3⟩ := runGen_ok_src o maxRetries 1 u h
    cases hok : o k with
    | err m => rw [hok] at hk3; simp [attemptOutcome] at hk3
    | ok resp =>
      rw [hok] at hk3
      cases hf : findInline resp.parts with
      | none => simp [attemptOutcome, hf] at hk3
      | some d =>
        simp [attemptOutcome, hf] at hk3
        exact ⟨k, resp, d, hk1, by omega, hok, hf, hk3.symm⟩

/-- C6 (amended) witness: a successful run's value is the echo of the
response's inline data. -/
theorem generate_success_echoes_response_inline_witness :
    ∃ k resp d, 1 ≤ k ∧ k ≤ maxRetries ∧
      (fun _ : Nat => CallResult.ok
        (GenResponse.mk (some [⟨some ⟨"image/png", "DD"⟩⟩]) none)) k =
        CallResult.ok resp ∧
      findInline resp.parts = some d ∧
      "data:image/png;base64,DD" = mkDataUrl d.mimeType d.data :=
  generate_success_echoes_response_inline "data:image/png;base64,AA"
    (fun _ => CallResult.ok ⟨some [⟨some ⟨"image/png", "DD"⟩⟩], none⟩)
    "data:image/png;base64,DD" rfl

/-- C10: the MIME capture group of the validation regex is `image\/\w+`, so
a syntactically valid image data URL whose subtype carries a non-word
character — `data:image/svg+xml;base64,AAAA` — fails validation and the
generator fails with the invalid-input error, no attempt made; moreover any
accepted MIME type is `image/` followed by a non-empty word-character run. -/
theorem validation_rejects_nonword_mime (o : Nat → CallResult) :
    matchDataUrl "data:image/svg+xml;base64,AAAA" = none ∧
    generateWatercolourPainting "data:image/svg+xml;base64,AAAA" o =
      ⟨0, [], .error invalidInputMsg⟩ ∧
    (∀ s m p, matchDataUrl s = some (m, p) →
      ∃ w : List Char, w ≠ [] ∧ w.all isWordChar = true ∧
        m = "image/" ++ String.mk w) := by
  refine ⟨rfl, rfl, ?_⟩
  intro s m p h
  simp only [matchDataUrl] at h
  split at h
  · split at h
    · exact absurd h (by simp)
    · next hrun =>
      split at h
      · split at h
        · rw [Option.some.injEq, Prod.mk.injEq] at h
          refine ⟨(takeWordRun (s.toList.drop "data:image/".toList.length)).1,
            ?_, takeWordRun_words _, h.1.symm⟩
          simpa using hrun
        · exact absurd h (by simp)
      · exact absurd h (by simp)
  · exact absurd h (by simp)

/-- C10 witness: an accepted input's MIME group is a non-empty word run
after `image/`. -/
theorem validation_rejects_nonword_mime_witness :
    ∃ w : List Char, w ≠ [] ∧ w.all isWordChar = true ∧
      "image/png" = "image/" ++ String.mk w :=
  (validation_rejects_nonword_mime (fun _ => CallResult.err "x")).2.2
    "data:image/png;base64,AA" "image/png" "AA" (by decide)

/-! ## Claims about the application state machine -/

/-- C7: re-running generation from a result state with a cached capture
makes no `captureView()` call and its outcome is independent of what a fresh
capture would have produced; with no prior result (a fresh run), exactly one
`captureView()` call is made, and on success its value is stored as the new
cached capture. -/
theorem capture_cache_reuse
    (st : AppState) (capture : Except String String)
    (gen : String → Except String String) :
    (st.watercolourPainting ≠ "" → st.capturedMapImage ≠ "" →
      (handleGenerateWatercolour st capture gen).2 = 0 ∧
      ∀ capture2, handleGenerateWatercolour st capture gen =
        handleGenerateWatercolour st capture2 gen) ∧
    (st.watercolourPainting = "" →
      (handleGenerateWatercolour st capture gen).2 = 1 ∧
      ∀ img url, capture = .ok img → gen img = .ok url →
        (handleGenerateWatercolour st capture gen).1.capturedMapImage = img ∧
        (handleGenerateWatercolour st capture gen).1.watercolourPainting = url) := by
  constructor
  · intro hw hc
    unfold handleGenerateWatercolour
    rw [if_pos ⟨hw, hc⟩]
    constructor
    · cases gen st.capturedMapImage <;> rfl
    · intro capture2
      rw [if_pos ⟨hw, hc⟩]
  · intro hw
    have hcond : ¬(st.watercolourPainting ≠ "" ∧ st.capturedMapImage ≠ "") := by
      intro hk; exact hk.1 hw
    constructor
    · unfold handleGenerateWatercolour
      rw [if_neg hcond]
      cases capture with
      | error e => rfl
      | ok img => cases hg : gen img <;> simp [hg]
    · intro img url hcap hgen
      unfold handleGenerateWatercolour
      rw [if_neg hcond, hcap]
      simp [hgen]

/-- C7 witness: from a result state with a cached capture, no capture call
is made. -/
theorem capture_cache_reuse_witness :
    (handleGenerateWatercolour ⟨none, true, false, "PAINT", "CAP"⟩
      (.ok "X") (fun _ => .ok "NEW")).2 = 0 :=
  ((capture_cache_reuse ⟨none, true, false, "PAINT", "CAP"⟩
    (.ok "X") (fun _ => .ok "NEW")).1 (by decide) (by decide)).1

/-- C8: whenever the image fed to the generator (cached or freshly captured)
makes the generator fail — with any error — the handler lands in the failure
state: the message is surfaced and both the result and the cached capture
are cleared. -/
theorem generation_failure_clears_state
    (st : AppState) (capture : Except String String)
    (gen : String → Except String String) (img e : String)
    (himg : imageToProcess st capture = .ok img)
    (hgen : gen img = .error e) :
    (handleGenerateWatercolour st capture gen).1 = genFailState st e ∧
    (genFailState st e).watercolourPainting = "" ∧
    (genFailState st e).capturedMapImage = "" ∧
    (genFailState st e).error = some e := by
  refine ⟨?_, rfl, rfl, rfl⟩
  unfold imageToProcess at himg
  unfold handleGenerateWatercolour
  by_cases hcond : st.watercolourPainting ≠ "" ∧ st.capturedMapImage ≠ ""
  · rw [if_pos hcond] at himg ⊢
    have : img = st.capturedMapImage := by
      simpa using himg.symm
    rw [this] at hgen
    rw [hgen]
  · rw [if_neg hcond] at himg ⊢
    rw [himg]
    simp [hgen]

/-- C8 witness: a fresh-capture run whose generation fails is cleared. -/
theorem generation_failure_clears_state_witness :
    (handleGenerateWatercolour ⟨none, true, false, "", ""⟩
      (.ok "IMG") (fun _ => .error "ERR")).1 =
      genFailState ⟨none, true, false, "", ""⟩ "ERR" :=
  (generation_failure_clears_state ⟨none, true, false, "", ""⟩
    (.ok "IMG") (fun _ => .error "ERR") "IMG" "ERR" rfl rfl).1

/-- C9: `initMap` (the transition into a freshly rendered view) clears both
the held result and the cached capture, so the next generation request never
reuses a capture from before the boundary: it always makes exactly one fresh
`captureView()` call. -/
theorem init_map_invalidates_cache
    (st : AppState) (capture : Except String String)
    (gen : String → Except String String) :
    (initMap st).watercolourPainting = "" ∧
    (initMap st).capturedMapImage = "" ∧
    (handleGenerateWatercolour (initMap st) capture gen).2 = 1 := by
  refine ⟨rfl, rfl, ?_⟩
  unfold handleGenerateWatercolour
  rw [if_neg (by intro hk; exact hk.1 rfl)]
  cases capture with
  | error e => rfl
  | ok img => cases hg : gen img <;> simp [hg]

end Art
